import Mathlib

/-!
# Passport verification core: a shallow embedding

This file embeds, in Lean, the deterministic core of the passport
zero-knowledge verification programs: the attribute model, the age
computation, the SHA-256 identity commitment and wallet-binding hashes, the
placeholder signature check, the timestamp-to-date conversion, and the
per-mode dispatchers, as implemented in
`passport-protocol/lib/src/lib.rs`, `zkp/lib/src/lib.rs`,
`passport-protocol/program/src/main.rs` and `zkp/program/src/main.rs`.

Bytes are modelled as `Nat` values (concrete inputs use values `< 256`),
byte strings as `List Nat`, and Rust's `u8`/`u16`/`u32`/`u64` arithmetic as
`Nat` arithmetic with explicit `% 2^w` reductions where the Rust code can
wrap. Fallible computations (Rust panics) are modelled with `Option`.
-/

/-! ## SHA-256 (FIPS 180-4), over byte lists

The Rust sources hash with the `sha2` crate's streaming interface
(`Sha256::new`, `update`, `finalize`). The function below is the SHA-256
function itself; the streaming interface is modelled afterwards as a byte
buffer whose `finalize` hashes the accumulated bytes, which is the `sha2`
crate's documented semantics. -/

/-- Reduce to a 32-bit word. -/
def w32 (n : Nat) : Nat := n % 4294967296

/-- 32-bit right rotation. -/
def rotr (n x : Nat) : Nat := w32 ((x >>> n) ||| (x <<< (32 - n)))

/-- SHA-256 `Ch` function. -/
def shaCh (x y z : Nat) : Nat := (x &&& y) ^^^ ((x ^^^ 4294967295) &&& z)

/-- SHA-256 `Maj` function. -/
def shaMaj (x y z : Nat) : Nat := (x &&& y) ^^^ (x &&& z) ^^^ (y &&& z)

/-- SHA-256 big sigma 0. -/
def bSig0 (x : Nat) : Nat := rotr 2 x ^^^ rotr 13 x ^^^ rotr 22 x

/-- SHA-256 big sigma 1. -/
def bSig1 (x : Nat) : Nat := rotr 6 x ^^^ rotr 11 x ^^^ rotr 25 x

/-- SHA-256 small sigma 0. -/
def sSig0 (x : Nat) : Nat := rotr 7 x ^^^ rotr 18 x ^^^ (x >>> 3)

/-- SHA-256 small sigma 1. -/
def sSig1 (x : Nat) : Nat := rotr 17 x ^^^ rotr 19 x ^^^ (x >>> 10)

/-- The 64 SHA-256 round constants. -/
def shaK : List Nat :=
  [1116352408, 1899447441, 3049323471, 3921009573,
   961987163, 1508970993, 2453635748, 2870763221,
   3624381080, 310598401, 607225278, 1426881987,
   1925078388, 2162078206, 2614888103, 3248222580,
   3835390401, 4022224774, 264347078, 604807628,
   770255983, 1249150122, 1555081692, 1996064986,
   2554220882, 2821834349, 2952996808, 3210313671,
   3336571891, 3584528711, 113926993, 338241895,
   666307205, 773529912, 1294757372, 1396182291,
   1695183700, 1986661051, 2177026350, 2456956037,
   2730485921, 2820302411, 3259730800, 3345764771,
   3516065817, 3600352804, 4094571909, 275423344,
   430227734, 506948616, 659060556, 883997877,
   958139571, 1322822218, 1537002063, 1747873779,
   1955562222, 2024104815, 2227730452, 2361852424,
   2428436474, 2756734187, 3204031479, 3329325298]

/-- The working state of a SHA-256 compression: eight 32-bit words. -/
structure Hash8 where
  a : Nat
  b : Nat
  c : Nat
  d : Nat
  e : Nat
  f : Nat
  g : Nat
  h : Nat
deriving DecidableEq

/-- The SHA-256 initial hash value. -/
def shaH0 : Hash8 :=
  ⟨1779033703, 3144134277, 1013904242, 2773480762,
   1359893119, 2600822924, 528734635, 1541459225⟩

/-- Pack big-endian bytes into 32-bit words, four at a time. -/
def bytesToWords : List Nat → List Nat
  | b0 :: b1 :: b2 :: b3 :: rest =>
    w32 ((((b0 * 256 + b1) * 256 + b2) * 256 + b3)) :: bytesToWords rest
  | _ => []

/-- Extend a 16-word block with `fuel` further message-schedule words. -/
def extendW (ws : List Nat) : Nat → List Nat
  | 0 => ws
  | fuel + 1 =>
    let i := ws.length
    let w := w32 (sSig1 (ws.getD (i - 2) 0) + ws.getD (i - 7) 0 +
                  sSig0 (ws.getD (i - 15) 0) + ws.getD (i - 16) 0)
    extendW (ws ++ [w]) fuel

/-- One SHA-256 round. -/
def shaRound (st : Hash8) (kw : Nat × Nat) : Hash8 :=
  let t1 := w32 (st.h + bSig1 st.e + shaCh st.e st.f st.g + kw.1 + kw.2)
  let t2 := w32 (bSig0 st.a + shaMaj st.a st.b st.c)
  ⟨w32 (t1 + t2), st.a, st.b, st.c, w32 (st.d + t1), st.e, st.f, st.g⟩

/-- Compress one 64-byte block into the running hash value. -/
def compressBlock (st : Hash8) (block : List Nat) : Hash8 :=
  let ws := extendW (bytesToWords block) 48
  let r := (shaK.zip ws).foldl shaRound st
  ⟨w32 (st.a + r.a), w32 (st.b + r.b), w32 (st.c + r.c), w32 (st.d + r.d),
   w32 (st.e + r.e), w32 (st.f + r.f), w32 (st.g + r.g), w32 (st.h + r.h)⟩

/-- A `Nat` as 8 big-endian bytes (the SHA-256 length field). -/
def toBytesBE8 (n : Nat) : List Nat :=
  [(n >>> 56) &&& 255, (n >>> 48) &&& 255, (n >>> 40) &&& 255,
   (n >>> 32) &&& 255, (n >>> 24) &&& 255, (n >>> 16) &&& 255,
   (n >>> 8) &&& 255, n &&& 255]

/-- SHA-256 padding: append `0x80`, zeros to 56 mod 64, and the 64-bit
big-endian bit length. -/
def shaPad (msg : List Nat) : List Nat :=
  let L := msg.length
  let zeros := (120 - ((L + 1) % 64)) % 64
  msg ++ 128 :: List.replicate zeros 0 ++ toBytesBE8 (L * 8)

/-- Split a byte list into 64-byte chunks (`fuel` bounds the recursion). -/
def chunks64 : Nat → List Nat → List (List Nat)
  | 0, _ => []
  | _ + 1, [] => []
  | fuel + 1, l => l.take 64 :: chunks64 fuel (l.drop 64)

/-- Serialize the final hash value as 32 big-endian bytes. -/
def digestBytes (st : Hash8) : List Nat :=
  [(st.a >>> 24) &&& 255, (st.a >>> 16) &&& 255, (st.a >>> 8) &&& 255, st.a &&& 255,
   (st.b >>> 24) &&& 255, (st.b >>> 16) &&& 255, (st.b >>> 8) &&& 255, st.b &&& 255,
   (st.c >>> 24) &&& 255, (st.c >>> 16) &&& 255, (st.c >>> 8) &&& 255, st.c &&& 255,
   (st.d >>> 24) &&& 255, (st.d >>> 16) &&& 255, (st.d >>> 8) &&& 255, st.d &&& 255,
   (st.e >>> 24) &&& 255, (st.e >>> 16) &&& 255, (st.e >>> 8) &&& 255, st.e &&& 255,
   (st.f >>> 24) &&& 255, (st.f >>> 16) &&& 255, (st.f >>> 8) &&& 255, st.f &&& 255,
   (st.g >>> 24) &&& 255, (st.g >>> 16) &&& 255, (st.g >>> 8) &&& 255, st.g &&& 255,
   (st.h >>> 24) &&& 255, (st.h >>> 16) &&& 255, (st.h >>> 8) &&& 255, st.h &&& 255]

/-- SHA-256 of a byte list, as its 32 digest bytes. -/
def sha256 (msg : List Nat) : List Nat :=
  let padded := shaPad msg
  digestBytes ((chunks64 padded.length padded).foldl compressBlock shaH0)

/-- The streaming hasher state of the `sha2` crate (`Sha256::new` /
`update` / `finalize`), modelled as the buffer of bytes fed so far. -/
structure Sha256Hasher where
  data : List Nat
deriving DecidableEq

/-- `Sha256::new()`: an empty buffer. -/
def Sha256Hasher.new : Sha256Hasher := ⟨[]⟩

/-- `hasher.update(bs)`: append bytes to the buffer. -/
def Sha256Hasher.update (s : Sha256Hasher) (bs : List Nat) : Sha256Hasher :=
  ⟨s.data ++ bs⟩

/-- `hasher.finalize()`: SHA-256 of all bytes fed so far. -/
def Sha256Hasher.finalize (s : Sha256Hasher) : List Nat := sha256 s.data

/-! ## Data model

`Date`, `PassportAttributes` (passport-protocol lib, with signature fields)
and `PassportData` (zkp lib, without them). Rust `String` fields are their
UTF-8 bytes (`as_bytes`), modelled as `List Nat`. -/

/-- A date: `{year: u16, month: u8, day: u8}` (both libs). -/
structure Date where
  year : Nat
  month : Nat
  day : Nat
deriving DecidableEq

/-- Passport attributes, `passport-protocol/lib/src/lib.rs`. -/
structure PassportAttributes where
  document_number : List Nat
  date_of_birth : Date
  date_of_expiry : Date
  nationality : List Nat
  given_names : List Nat
  surname : List Nat
  signature : List Nat
  signed_attributes : List Nat
deriving DecidableEq

/-- Passport data, `zkp/lib/src/lib.rs` (no signature fields). -/
structure PassportData where
  document_number : List Nat
  date_of_birth : Date
  date_of_expiry : Date
  nationality : List Nat
  given_names : List Nat
  surname : List Nat
deriving DecidableEq

/-- Lexicographic order on dates (year, then month, then day): the caller
guarantee `birth ≤ current` that the age computation's contract assumes. -/
abbrev dateLe (a b : Date) : Prop :=
  a.year < b.year ∨
    (a.year = b.year ∧
      (a.month < b.month ∨ (a.month = b.month ∧ a.day ≤ b.day)))

/-! ## Date arithmetic

Both libs share one `calculate_age` body:

```rust
let mut age = current.year - birth.year;
if current.month < birth.month
   || (current.month == birth.month && current.day < birth.day) {
    age -= 1;
}
age
```

The subtractions are unchecked `u16` arithmetic. `calculate_age` models the
overflow-checked (debug build) semantics, where an underflowing subtraction
panics: `none` is the panic. `calculate_age_release` models the release
build, where both subtractions wrap modulo `2^16`. -/

/-- The source's decrement condition: the birthday has not yet occurred in
`current`'s year, i.e. `(current.month, current.day)` is lexicographically
less than `(birth.month, birth.day)`. -/
def birthdayNotOccurred (birth current : Date) : Prop :=
  current.month < birth.month ∨
    (current.month = birth.month ∧ current.day < birth.day)

instance (birth current : Date) : Decidable (birthdayNotOccurred birth current) := by
  unfold birthdayNotOccurred
  infer_instance

/-- `calculate_age`, overflow-checked semantics: `none` models the panic of
an underflowing `u16` subtraction (`current.year - birth.year`, or the
`age -= 1` when `age == 0`). -/
def calculate_age (birth current : Date) : Option Nat :=
  if current.year < birth.year then none
  else
    let age := current.year - birth.year
    if birthdayNotOccurred birth current then
      if age = 0 then none else some (age - 1)
    else some age

/-- `calculate_age`, release-build semantics: both `u16` subtractions wrap
modulo `2^16` (inputs are `u16` values, so `< 2^16`). -/
def calculate_age_release (birth current : Date) : Nat :=
  let age := (current.year + 65536 - birth.year) % 65536
  if birthdayNotOccurred birth current then (age + 65536 - 1) % 65536
  else age

/-! ## Commitments and signature check (library functions) -/

/-- Rust `u16::to_le_bytes`: two bytes, little-endian. -/
def u16ToLeBytes (n : Nat) : List Nat := [n % 256, (n / 256) % 256]

/-- `derive_identity_commitment` (`passport-protocol/lib/src/lib.rs`):
stream `document_number`, birth year (2 bytes LE), birth month, birth day
and `nationality` into SHA-256. -/
def derive_identity_commitment (passport : PassportAttributes) : List Nat :=
  (((((Sha256Hasher.new.update passport.document_number).update
        (u16ToLeBytes passport.date_of_birth.year)).update
        [passport.date_of_birth.month]).update
        [passport.date_of_birth.day]).update
        passport.nationality).finalize

/-- `create_passport_commitment` (`zkp/lib/src/lib.rs`): same streaming
hash over the `PassportData` fields. -/
def create_passport_commitment (passport : PassportData) : List Nat :=
  (((((Sha256Hasher.new.update passport.document_number).update
        (u16ToLeBytes passport.date_of_birth.year)).update
        [passport.date_of_birth.month]).update
        [passport.date_of_birth.day]).update
        passport.nationality).finalize

/-- `create_wallet_binding` (`zkp/lib/src/lib.rs`): SHA-256 of the passport
commitment followed by the 20-byte wallet address. -/
def create_wallet_binding (passport : PassportData) (wallet_address : List Nat) : List Nat :=
  ((Sha256Hasher.new.update (create_passport_commitment passport)).update
      wallet_address).finalize

/-- `verify_passport_signature` (`passport-protocol/lib/src/lib.rs`):
placeholder returning `!passport.signature.is_empty()`. -/
def verify_passport_signature (passport : PassportAttributes) : Bool :=
  !passport.signature.isEmpty

/-- `timestamp_to_date` (`passport-protocol/lib/src/lib.rs`): approximate
conversion with fixed 31536000-second years and 2628000-second months. The
`as u16` / `as u8` casts truncate, and the `u16` addition `1970 + …` wraps
in release builds, so the year is reduced modulo `2^16`. -/
def timestamp_to_date (timestamp : Nat) : Date :=
  let year := (1970 + (timestamp / 31536000) % 65536) % 65536
  let remainder := timestamp % 31536000
  let month := (1 + (remainder / 2628000) % 256) % 256
  let day := (1 + ((remainder % 2628000) / 86400) % 256) % 256
  ⟨year, month, day⟩

/-! ## Output records

The granular passport-protocol output structs (`AgeCheckOutput`,
`NationalityCheckOutput`, `WalletLinkOutput`) are declared in a lib version
not present in this snapshot; their fields are taken from the struct
literals in `passport-protocol/program/src/main.rs`, which is present. The
combined `PassportVerificationOutput` is declared in
`passport-protocol/lib/src/lib.rs`; the zkp output structs in
`zkp/lib/src/lib.rs`. -/

/-- Output record of the AgeCheck mode (fields as constructed in
`verify_age`, `passport-protocol/program/src/main.rs`). -/
structure AgeCheckOutput where
  is_over_min_age : Bool
  identity_commitment : List Nat
  min_age : Nat
  current_timestamp : Nat
deriving DecidableEq

/-- Output record of the NationalityCheck mode. -/
structure NationalityCheckOutput where
  is_match : Bool
  identity_commitment : List Nat
  target_nationality : List Nat
deriving DecidableEq

/-- Output record of the WalletLink mode. -/
structure WalletLinkOutput where
  identity_commitment : List Nat
  wallet_address : List Nat
deriving DecidableEq

/-- Output record of the combined ProofOfPassport mode
(`PassportVerificationOutput`, `passport-protocol/lib/src/lib.rs`). -/
structure PassportVerificationOutput where
  is_valid_signature : Bool
  is_over_min_age : Bool
  is_nationality_match : Bool
  identity_commitment : List Nat
  wallet_address : List Nat
  min_age : Nat
  target_nationality : List Nat
  current_timestamp : Nat
deriving DecidableEq

/-- Output record of the zkp wallet-binding mode (`WalletBindingOutput`,
`zkp/lib/src/lib.rs`). -/
structure WalletBindingOutput where
  binding_commitment : List Nat
  wallet_address : List Nat
deriving DecidableEq

/-! ## Granular dispatchers (`passport-protocol/program/src/main.rs`)

Each mode reads its inputs, panics (`none`) if the placeholder signature
check fails, computes its predicate, and commits its output record to the
write-once public output channel. The committed record is the `some` value;
`none` means the run aborted with no record assembled and no bytes
committed. The age computation's possible panic is propagated. -/

/-- `verify_age`: AgeCheck mode. -/
def verify_age (passport : PassportAttributes) (current_timestamp : Nat)
    (min_age : Nat) : Option AgeCheckOutput :=
  if verify_passport_signature passport then
    (calculate_age passport.date_of_birth (timestamp_to_date current_timestamp)).map
      fun age =>
        { is_over_min_age := decide (min_age ≤ age)
          identity_commitment := derive_identity_commitment passport
          min_age := min_age
          current_timestamp := current_timestamp }
  else none

/-- `verify_nationality`: NationalityCheck mode. -/
def verify_nationality (passport : PassportAttributes)
    (target_nationality : List Nat) : Option NationalityCheckOutput :=
  if verify_passport_signature passport then
    some { is_match := decide (passport.nationality = target_nationality)
           identity_commitment := derive_identity_commitment passport
           target_nationality := target_nationality }
  else none

/-- `verify_wallet_binding`: WalletLink mode. The record carries the
identity commitment and the wallet address. -/
def verify_wallet_binding (passport : PassportAttributes)
    (wallet_address : List Nat) : Option WalletLinkOutput :=
  if verify_passport_signature passport then
    some { identity_commitment := derive_identity_commitment passport
           wallet_address := wallet_address }
  else none

/-- The zkp program's wallet-binding mode
(`verify_wallet_binding`, `zkp/program/src/main.rs`): no signature check
(its `PassportData` has no signature), record carries the binding
commitment and the wallet address. -/
def zkp_verify_wallet_binding (passport : PassportData)
    (wallet_address : List Nat) : WalletBindingOutput :=
  { binding_commitment := create_wallet_binding passport wallet_address
    wallet_address := wallet_address }

/-- Modelled from the spec: the combined ProofOfPassport dispatcher. The
guest program handling `ProofType::ProofOfPassport` is not in this
snapshot (only its caller `script/src/bin/prove.rs` and its output struct
`PassportVerificationOutput` are), so this follows spec sections 4.4 and 6:
read bundle, wallet address, current timestamp, minimum age and target
nationality; compute signature validity (Report policy: carried as a
boolean, never fatal), the age predicate, the nationality predicate and the
identity commitment; commit the combined record. The age computation's
possible panic is propagated. -/
def verify_proof_of_passport (passport : PassportAttributes)
    (wallet_address : List Nat) (current_timestamp : Nat) (min_age : Nat)
    (target_nationality : List Nat) : Option PassportVerificationOutput :=
  (calculate_age passport.date_of_birth (timestamp_to_date current_timestamp)).map
    fun age =>
      { is_valid_signature := verify_passport_signature passport
        is_over_min_age := decide (min_age ≤ age)
        is_nationality_match := decide (passport.nationality = target_nationality)
        identity_commitment := derive_identity_commitment passport
        wallet_address := wallet_address
        min_age := min_age
        target_nationality := target_nationality
        current_timestamp := current_timestamp }

/-! ## Spec-side definitions

These restate, in the spec's own words, the byte layout the commitment is
claimed to hash and the age formula, to be compared with the functions
embedded from the source. -/

/-- The spec's commitment preimage: `document_number` bytes, then the birth
year as 2 little-endian bytes, then birth month (1 byte), then birth day
(1 byte), then `nationality` bytes, and nothing else. -/
def specCommitmentPreimage (doc : List Nat) (birth : Date)
    (nationality : List Nat) : List Nat :=
  doc ++ u16ToLeBytes birth.year ++ [birth.month] ++ [birth.day] ++ nationality

/-- The spec's age formula: `current.year - birth.year`, decremented by 1
exactly when `(current.month, current.day)` is lexicographically less than
`(birth.month, birth.day)`. -/
def spec_age (birth current : Date) : Nat :=
  if birthdayNotOccurred birth current then current.year - birth.year - 1
  else current.year - birth.year

/-! ## Concrete example inputs

Byte values spell the defaults of `script/src/bin/prove.rs`
(`"A12"`-style document number, nationality `"MYS"`, birth 1994-11-17). -/

/-- A concrete attribute bundle with a non-empty signature. -/
def exampleBundleA : PassportAttributes :=
  { document_number := [65, 49, 50]
    date_of_birth := ⟨1994, 11, 17⟩
    date_of_expiry := ⟨2030, 12, 31⟩
    nationality := [77, 89, 83]
    given_names := [74, 79, 72, 78]
    surname := [68, 79, 69]
    signature := [222, 173, 190, 239]
    signed_attributes := [] }

/-- The same identity triple as `exampleBundleA`, but different given
names, surname, expiry, signature (empty) and signed attributes. -/
def exampleBundleB : PassportAttributes :=
  { exampleBundleA with
    given_names := [88]
    surname := [89]
    date_of_expiry := ⟨2031, 1, 1⟩
    signature := []
    signed_attributes := [1, 2, 3] }

/-- A concrete zkp `PassportData` value with the same identity triple. -/
def examplePD : PassportData :=
  { document_number := [65, 49, 50]
    date_of_birth := ⟨1994, 11, 17⟩
    date_of_expiry := ⟨2030, 12, 31⟩
    nationality := [77, 89, 83]
    given_names := [74, 79, 72, 78]
    surname := [68, 79, 69] }

/-- A concrete 20-byte wallet address. -/
def exampleWallet : List Nat :=
  [1, 2, 3, 4, 5, 6, 7, 8, 9, 10, 11, 12, 13, 14, 15, 16, 17, 18, 19, 20]

/-! ## Helper lemmas -/

/-- A SHA-256 digest is 32 bytes. -/
theorem sha256_length (msg : List Nat) : (sha256 msg).length = 32 := rfl

/-- Under the caller guarantee `birth ≤ current`, the age computation does
not panic. -/
theorem calculate_age_isSome_of_dateLe (birth current : Date)
    (h : dateLe birth current) : ∃ a, calculate_age birth current = some a := by
  unfold calculate_age birthdayNotOccurred
  unfold dateLe at h
  split_ifs with h1 h2
  · exact (False.elim (by omega))
  · refine ⟨current.year - birth.year - 1, ?_⟩
    show (if current.year - birth.year = 0 then (none : Option Nat)
          else some (current.year - birth.year - 1)) =
        some (current.year - birth.year - 1)
    rw [if_neg (show ¬ current.year - birth.year = 0 by omega)]
  · exact ⟨current.year - birth.year, rfl⟩

/-! ## Claims -/

/-- C1: for every attribute bundle, the commitment is the SHA-256 (256-bit,
32-byte) digest of exactly the ordered concatenation document_number bytes
‖ birth year (2 bytes little-endian) ‖ birth month (1 byte) ‖ birth day
(1 byte) ‖ nationality bytes, and nothing else — for both
`derive_identity_commitment` and `create_passport_commitment`. -/
theorem commitment_is_sha256_of_ordered_fields
    (p : PassportAttributes) (q : PassportData) :
    derive_identity_commitment p =
      sha256 (specCommitmentPreimage p.document_number p.date_of_birth
        p.nationality) ∧
    (derive_identity_commitment p).length = 32 ∧
    create_passport_commitment q =
      sha256 (specCommitmentPreimage q.document_number q.date_of_birth
        q.nationality) ∧
    (create_passport_commitment q).length = 32 := by
  refine ⟨?_, sha256_length _, ?_, sha256_length _⟩ <;>
    simp [derive_identity_commitment, create_passport_commitment,
      Sha256Hasher.new, Sha256Hasher.update, Sha256Hasher.finalize,
      specCommitmentPreimage]

/-- Witness for C1 at a concrete bundle. -/
theorem commitment_is_sha256_of_ordered_fields_witness :
    derive_identity_commitment exampleBundleA =
      sha256 (specCommitmentPreimage exampleBundleA.document_number
        exampleBundleA.date_of_birth exampleBundleA.nationality) ∧
    (derive_identity_commitment exampleBundleA).length = 32 :=
  ⟨(commitment_is_sha256_of_ordered_fields exampleBundleA examplePD).1,
   (commitment_is_sha256_of_ordered_fields exampleBundleA examplePD).2.1⟩

/-- C2: the commitment is a pure function of the triple {document_number,
date_of_birth, nationality} only — two bundles agreeing on the triple get
the same commitment whatever their given_names, surname, signature,
signed_attributes or date_of_expiry (both commitment functions). -/
theorem commitment_ignores_non_identity_fields
    (p q : PassportAttributes) (pd qd : PassportData)
    (h1 : p.document_number = q.document_number)
    (h2 : p.date_of_birth = q.date_of_birth)
    (h3 : p.nationality = q.nationality)
    (h4 : pd.document_number = qd.document_number)
    (h5 : pd.date_of_birth = qd.date_of_birth)
    (h6 : pd.nationality = qd.nationality) :
    derive_identity_commitment p = derive_identity_commitment q ∧
    create_passport_commitment pd = create_passport_commitment qd := by
  constructor <;>
    simp [derive_identity_commitment, create_passport_commitment,
      Sha256Hasher.new, Sha256Hasher.update, Sha256Hasher.finalize,
      h1, h2, h3, h4, h5, h6]

/-- Witness for C2: two concrete bundles differing in given_names, surname,
signature, signed_attributes and date_of_expiry share a commitment. -/
theorem commitment_ignores_non_identity_fields_witness :
    exampleBundleA.given_names ≠ exampleBundleB.given_names ∧
    exampleBundleA.surname ≠ exampleBundleB.surname ∧
    exampleBundleA.signature ≠ exampleBundleB.signature ∧
    exampleBundleA.signed_attributes ≠ exampleBundleB.signed_attributes ∧
    exampleBundleA.date_of_expiry ≠ exampleBundleB.date_of_expiry ∧
    derive_identity_commitment exampleBundleA =
      derive_identity_commitment exampleBundleB :=
  ⟨by decide, by decide, by decide, by decide, by decide,
   (commitment_ignores_non_identity_fields exampleBundleA exampleBundleB
      examplePD examplePD rfl rfl rfl rfl rfl rfl).1⟩

/-- C3: under the caller guarantee `birth ≤ current`, `calculate_age`
returns `current.year - birth.year`, decremented by 1 exactly when
`(current.month, current.day)` is lexicographically less than
`(birth.month, birth.day)` (so a birthday falling on `current` is not
decremented), as `spec_age` states. -/
theorem calculate_age_matches_spec (birth current : Date)
    (h : dateLe birth current) :
    calculate_age birth current = some (spec_age birth current) := by
  unfold calculate_age spec_age birthdayNotOccurred
  unfold dateLe at h
  split_ifs with h1 h2
  · exact (False.elim (by omega))
  · show (if current.year - birth.year = 0 then (none : Option Nat)
          else some (current.year - birth.year - 1)) =
        some (current.year - birth.year - 1)
    rw [if_neg (show ¬ current.year - birth.year = 0 by omega)]
  · rfl

/-- Witness for C3: the spec's boundary examples around birth 1994-11-17. -/
theorem calculate_age_matches_spec_witness :
    dateLe ⟨1994, 11, 17⟩ ⟨2025, 11, 16⟩ ∧
    calculate_age ⟨1994, 11, 17⟩ ⟨2025, 11, 16⟩ = some 30 ∧
    calculate_age ⟨1994, 11, 17⟩ ⟨2025, 11, 17⟩ = some 31 ∧
    calculate_age ⟨1994, 11, 17⟩ ⟨2025, 11, 18⟩ = some 31 :=
  ⟨by decide,
   (calculate_age_matches_spec ⟨1994, 11, 17⟩ ⟨2025, 11, 16⟩ (by decide)).trans
     (by decide),
   by decide, by decide⟩

/-- C4 (code bug): at birth 2030-01-01, current 2025-01-01, the code has no
`InvalidDateOrder` error path: the checked semantics panics (`none` here,
an arithmetic-overflow abort, not an error value) and the release
semantics silently wraps the `u16` subtraction to 65531. -/
theorem calculate_age_reversed_dates_has_no_error_path :
    calculate_age ⟨2030, 1, 1⟩ ⟨2025, 1, 1⟩ = none ∧
    calculate_age_release ⟨2030, 1, 1⟩ ⟨2025, 1, 1⟩ = 65531 := by
  constructor <;> decide

/-- C5: in the granular modes that check the signature as a precondition
(AgeCheck, NationalityCheck, WalletLink), an invalid signature aborts the
run before anything is committed: no output record is assembled, so
nothing is ever written to the public output channel (fail-closed). -/
theorem granular_modes_fail_closed (passport : PassportAttributes)
    (ts ma : Nat) (tn w : List Nat)
    (h : verify_passport_signature passport = false) :
    verify_age passport ts ma = none ∧
    verify_nationality passport tn = none ∧
    verify_wallet_binding passport w = none := by
  unfold verify_age verify_nationality verify_wallet_binding
  simp [h]

/-- Witness for C5: a bundle with empty signature aborts all three
granular modes. -/
theorem granular_modes_fail_closed_witness :
    verify_passport_signature exampleBundleB = false ∧
    verify_age exampleBundleB 1700000000 18 = none ∧
    verify_nationality exampleBundleB [77, 89, 83] = none ∧
    verify_wallet_binding exampleBundleB exampleWallet = none :=
  ⟨rfl, granular_modes_fail_closed exampleBundleB 1700000000 18 [77, 89, 83]
    exampleWallet rfl⟩

/-- C6: the combined ProofOfPassport mode follows the Report policy:
whenever the run completes (the age arithmetic does not abort), it commits
a record whose `is_valid_signature` field carries the computed signature
validity, in particular completing normally when that boolean is false. -/
theorem combined_mode_reports_signature (passport : PassportAttributes)
    (w : List Nat) (ts ma : Nat) (tn : List Nat)
    (h : dateLe passport.date_of_birth (timestamp_to_date ts)) :
    ∃ r, verify_proof_of_passport passport w ts ma tn = some r ∧
      r.is_valid_signature = verify_passport_signature passport := by
  obtain ⟨a, ha⟩ :=
    calculate_age_isSome_of_dateLe passport.date_of_birth
      (timestamp_to_date ts) h
  unfold verify_proof_of_passport
  rw [ha]
  exact ⟨_, rfl, rfl⟩

/-- Witness for C6: a bundle with an invalid (empty) signature still
completes the combined mode, with `is_valid_signature = false` in the
committed record. -/
theorem combined_mode_reports_signature_witness :
    dateLe exampleBundleB.date_of_birth (timestamp_to_date 1700000000) ∧
    ∃ r, verify_proof_of_passport exampleBundleB exampleWallet 1700000000 18
        [77, 89, 83] = some r ∧
      r.is_valid_signature = false := by
  refine ⟨by decide, ?_⟩
  obtain ⟨r, h1, h2⟩ :=
    combined_mode_reports_signature exampleBundleB exampleWallet 1700000000 18
      [77, 89, 83] (by decide)
  exact ⟨r, h1, by rw [h2]; rfl⟩

/-- C7 counterexample: in the passport-protocol WalletLink mode, the
32-byte commitment placed in the output record is the raw identity
commitment, which differs, at a concrete (bundle, wallet) input, from the
binding hash `sha256(commitment(bundle) ‖ walletAddress)` the claim
requires. -/
theorem wallet_link_record_lacks_binding_hash :
    (verify_wallet_binding exampleBundleA exampleWallet).map
        WalletLinkOutput.identity_commitment =
      some (derive_identity_commitment exampleBundleA) ∧
    derive_identity_commitment exampleBundleA ≠
      sha256 (derive_identity_commitment exampleBundleA ++ exampleWallet) := by
  constructor
  · rfl
  · decide

/-- C7 as amended: in the zkp WalletBinding mode, the 32-byte
`binding_commitment` placed in the output record equals
`sha256(create_passport_commitment(bundle) ‖ walletAddress)`. -/
theorem zkp_wallet_binding_record_is_binding_hash (passport : PassportData)
    (wallet : List Nat) :
    (zkp_verify_wallet_binding passport wallet).binding_commitment =
      sha256 (create_passport_commitment passport ++ wallet) ∧
    ((zkp_verify_wallet_binding passport wallet).binding_commitment).length
      = 32 := by
  refine ⟨?_, sha256_length _⟩
  simp [zkp_verify_wallet_binding, create_wallet_binding, Sha256Hasher.new,
    Sha256Hasher.update, Sha256Hasher.finalize]

/-- Witness for the amended C7 at a concrete (bundle, wallet) pair. -/
theorem zkp_wallet_binding_record_is_binding_hash_witness :
    (zkp_verify_wallet_binding examplePD exampleWallet).binding_commitment =
      sha256 (create_passport_commitment examplePD ++ exampleWallet) :=
  (zkp_wallet_binding_record_is_binding_hash examplePD exampleWallet).1

/-- C8: the placeholder signature check returns true exactly when the
signature byte sequence is non-empty, independently of
`signed_attributes`; no cryptographic verification happens. -/
theorem signature_check_is_nonempty_test (passport : PassportAttributes)
    (sa : List Nat) :
    (verify_passport_signature passport = true ↔ passport.signature ≠ []) ∧
    verify_passport_signature { passport with signed_attributes := sa } =
      verify_passport_signature passport := by
  constructor
  · cases hp : passport.signature <;> simp [verify_passport_signature, hp]
  · rfl

/-- Witness for C8: empty signature gives false, a non-empty one true,
with identical `signed_attributes` treatment. -/
theorem signature_check_is_nonempty_test_witness :
    (verify_passport_signature exampleBundleA = true ↔
      exampleBundleA.signature ≠ []) ∧
    verify_passport_signature exampleBundleA = true ∧
    verify_passport_signature exampleBundleB = false :=
  ⟨(signature_check_is_nonempty_test exampleBundleA []).1, rfl, rfl⟩

/-- C9: under the caller guarantee `birth ≤ current` (lexicographically on
(year, month, day)), the age computation cannot underflow: the decrement
branch can only be reached when `current.year > birth.year`, no panic
occurs, and the result is at most `current.year - birth.year`. -/
theorem calculate_age_no_underflow (birth current : Date)
    (h : dateLe birth current) :
    (birthdayNotOccurred birth current → birth.year < current.year) ∧
    ∃ a, calculate_age birth current = some a ∧
      a ≤ current.year - birth.year := by
  constructor
  · intro hb
    unfold birthdayNotOccurred at hb
    unfold dateLe at h
    omega
  · unfold calculate_age birthdayNotOccurred
    unfold dateLe at h
    split_ifs with h1 h2
    · exact (False.elim (by omega))
    · refine ⟨current.year - birth.year - 1, ?_, by omega⟩
      show (if current.year - birth.year = 0 then (none : Option Nat)
            else some (current.year - birth.year - 1)) =
          some (current.year - birth.year - 1)
      rw [if_neg (show ¬ current.year - birth.year = 0 by omega)]
    · exact ⟨current.year - birth.year, rfl, le_refl _⟩

/-- Witness for C9 at a concrete admissible date pair. -/
theorem calculate_age_no_underflow_witness :
    dateLe ⟨1994, 11, 17⟩ ⟨2025, 11, 16⟩ ∧
    ∃ a, calculate_age ⟨1994, 11, 17⟩ ⟨2025, 11, 16⟩ = some a ∧ a ≤ 31 :=
  ⟨by decide,
   (calculate_age_no_underflow ⟨1994, 11, 17⟩ ⟨2025, 11, 16⟩ (by decide)).2⟩

/-- C10: for every timestamp, `timestamp_to_date` yields a month in 1..12
and a day in 1..31: the fixed 31536000-second year and 2628000-second
month can never produce month 13 or day 32. -/
theorem timestamp_to_date_month_day_in_range (ts : Nat) :
    1 ≤ (timestamp_to_date ts).month ∧ (timestamp_to_date ts).month ≤ 12 ∧
    1 ≤ (timestamp_to_date ts).day ∧ (timestamp_to_date ts).day ≤ 31 := by
  have h1 : ts % 31536000 < 31536000 := Nat.mod_lt _ (by norm_num)
  have h2 : ts % 31536000 / 2628000 ≤ 11 := by omega
  have h3 : ts % 31536000 % 2628000 < 2628000 := Nat.mod_lt _ (by norm_num)
  have h4 : ts % 31536000 % 2628000 / 86400 ≤ 30 := by omega
  have h5 : ts % 31536000 / 2628000 % 256 = ts % 31536000 / 2628000 :=
    Nat.mod_eq_of_lt (by omega)
  have h6 : ts % 31536000 % 2628000 / 86400 % 256 =
      ts % 31536000 % 2628000 / 86400 :=
    Nat.mod_eq_of_lt (by omega)
  have h7 : (1 + ts % 31536000 / 2628000) % 256 =
      1 + ts % 31536000 / 2628000 :=
    Nat.mod_eq_of_lt (by omega)
  have h8 : (1 + ts % 31536000 % 2628000 / 86400) % 256 =
      1 + ts % 31536000 % 2628000 / 86400 :=
    Nat.mod_eq_of_lt (by omega)
  unfold timestamp_to_date
  simp only [h5, h6, h7, h8]
  omega

/-- Witness for C10 at a concrete timestamp. -/
theorem timestamp_to_date_month_day_in_range_witness :
    1 ≤ (timestamp_to_date 1700000000).month ∧
    (timestamp_to_date 1700000000).month ≤ 12 ∧
    1 ≤ (timestamp_to_date 1700000000).day ∧
    (timestamp_to_date 1700000000).day ≤ 31 :=
  timestamp_to_date_month_day_in_range 1700000000
